import Mathlib

/-!
Shallow embedding of the "Working With MongoDB Relationships" service:
two Mongoose models (User, Task), two controllers, two Express routers
with express-validator rules, the application entry wiring, and the
MongoDB connection bootstrap.  Definitions are translated from the
repository source (src/index.js and src/config/connectToMongoDB.js);
theorems below settle the specification claims against them.
-/

namespace MongoRel

/-- Hex digit test used by the MongoDB ObjectId format check. -/
def isHexDigit (c : Char) : Bool :=
  c.isDigit || (c ≥ 'a' && c ≤ 'f') || (c ≥ 'A' && c ≤ 'F')

/-- Model of express-validator's isMongoId: a 24-character hex string. -/
def isMongoId (s : String) : Bool :=
  s.length == 24 && s.data.all isHexDigit

/-- Model of what the Mongoose driver accepts when casting a string to an
ObjectId: a 24-character hex string, or any 12-character string (taken as
raw bytes).  Broader than `isMongoId`. -/
def castableToObjectId (s : String) : Bool :=
  isMongoId s || s.length == 12

/-- Model of the JavaScript toLowerCase applied by the schema's lowercase
option, on the basic-latin mapping. -/
def toLowerStr (s : String) : String :=
  String.mk (s.data.map Char.toLower)

/-- Persisted User document (userSchema: username required, lowercase,
unique; timestamps auto-maintained; store-generated _id). -/
structure User where
  id : String
  username : String
  createdAt : Nat
  updatedAt : Nat
deriving DecidableEq, Repr

/-- Persisted Task document (taskSchema: title required; user an ObjectId
reference to a User, required; timestamps). -/
structure Task where
  id : String
  title : String
  user : String
  createdAt : Nat
  updatedAt : Nat
deriving DecidableEq, Repr

/-- A Task after .populate("user"): the user reference is replaced by the
full referenced User document, or none when that document is absent. -/
structure PopulatedTask where
  id : String
  title : String
  user : Option User
  createdAt : Nat
  updatedAt : Nat
deriving DecidableEq, Repr

/-- State of the document store as seen by this process: connectivity, the
two collections, an id-generation counter and the current clock. -/
structure DB where
  connected : Bool
  users : List User
  tasks : List Task
  counter : Nat
  now : Nat
deriving DecidableEq, Repr

/-- Errors raised by the persistence layer (Mongoose / MongoDB driver). -/
inductive MongoError where
  | duplicateKey (msg : String)
  | docValidationFailed (msg : String)
  | castFailed (msg : String)
  | notConnected (msg : String)
deriving DecidableEq, Repr

/-- The error.message field read by the route handlers. -/
def MongoError.message : MongoError → String
  | .duplicateKey m => m
  | .docValidationFailed m => m
  | .castFailed m => m
  | .notConnected m => m

/-- Store-generated ObjectId for the n-th created document. -/
def genOid (n : Nat) : String :=
  let ds := Nat.toDigits 16 n
  String.mk (List.replicate (24 - ds.length) '0' ++ ds)

/-- Request body for POST /api/users: the username field, when present. -/
structure UserBody where
  username : Option String
deriving DecidableEq, Repr

/-- Request body for POST /api/tasks: title and user fields, when present. -/
structure TaskBody where
  title : Option String
  user : Option String
deriving DecidableEq, Repr

/-- Model of User.create(userData): fails when the store is unreachable;
enforces required username (absent or empty fails), applies the schema's
lowercase normalization, enforces the unique index on username; otherwise
appends the new document with generated id and timestamps. -/
def User.create (db : DB) (body : UserBody) : Except MongoError (User × DB) :=
  if db.connected = false then
    .error (.notConnected "Operation users.insertOne() buffering timed out")
  else
    match body.username with
    | none =>
      .error (.docValidationFailed "User validation failed: username: Path username is required.")
    | some raw =>
      if raw == "" then
        .error (.docValidationFailed "User validation failed: username: Path username is required.")
      else
        if db.users.any (fun u => u.username == toLowerStr raw) then
          .error (.duplicateKey "E11000 duplicate key error collection: users index: username_1")
        else
          .ok (⟨genOid db.counter, toLowerStr raw, db.now, db.now⟩,
            { db with
                users := db.users ++ [⟨genOid db.counter, toLowerStr raw, db.now, db.now⟩],
                counter := db.counter + 1 })

/-- Model of Task.create(taskData): fails when the store is unreachable;
enforces required title (absent or empty fails) and required user; the
user value must cast to an ObjectId; otherwise appends the new document. -/
def Task.create (db : DB) (body : TaskBody) : Except MongoError (Task × DB) :=
  if db.connected = false then
    .error (.notConnected "Operation tasks.insertOne() buffering timed out")
  else
    match body.title with
    | none =>
      .error (.docValidationFailed "Task validation failed: title: Path title is required.")
    | some t =>
      if t == "" then
        .error (.docValidationFailed "Task validation failed: title: Path title is required.")
      else
        match body.user with
        | none =>
          .error (.docValidationFailed "Task validation failed: user: Path user is required.")
        | some uref =>
          if castableToObjectId uref = false then
            .error (.castFailed "Task validation failed: user: Cast to ObjectId failed")
          else
            .ok (⟨genOid db.counter, t, uref, db.now, db.now⟩,
              { db with
                  tasks := db.tasks ++ [⟨genOid db.counter, t, uref, db.now, db.now⟩],
                  counter := db.counter + 1 })

/-- Model of .populate("user") on one Task: look the referenced User up in
the users collection and embed it (none when it does not exist). -/
def Task.populateUser (db : DB) (t : Task) : PopulatedTask :=
  ⟨t.id, t.title, db.users.find? (fun u => u.id == t.user), t.createdAt, t.updatedAt⟩

/-- Model of Task.find(\x7b user: userId \x7d).populate("user"): fails when the
store is unreachable or when userId does not cast to an ObjectId; otherwise
returns every Task whose user field equals userId, each populated. -/
def Task.findUserPopulate (db : DB) (userId : String) : Except MongoError (List PopulatedTask) :=
  if db.connected = false then
    .error (.notConnected "Operation tasks.find() buffering timed out")
  else if castableToObjectId userId = false then
    .error (.castFailed "Cast to ObjectId failed for value at path user for model Task")
  else
    .ok ((db.tasks.filter (fun t => t.user == userId)).map (Task.populateUser db))

/-- Controller createUser(userData): awaits User.create inside try/catch
and rethrows the caught error unchanged. -/
def createUser (db : DB) (body : UserBody) : Except MongoError (User × DB) :=
  match User.create db body with
  | .ok newUser => .ok newUser
  | .error e => .error e

/-- Controller createTask(taskData): awaits Task.create inside try/catch
and rethrows the caught error unchanged. -/
def createTask (db : DB) (body : TaskBody) : Except MongoError (Task × DB) :=
  match Task.create db body with
  | .ok newTask => .ok newTask
  | .error e => .error e

/-- Controller getTasksByUser(userId): awaits the find-and-populate query
inside try/catch and rethrows the caught error unchanged. -/
def getTasksByUser (db : DB) (userId : String) : Except MongoError (List PopulatedTask) :=
  match Task.findUserPopulate db userId with
  | .ok tasks => .ok tasks
  | .error e => .error e

/-- Model of express-validator's notEmpty on a body field: fails when the
field is absent or the empty string. -/
def notEmptyOpt : Option String → Bool
  | none => false
  | some s => !(s == "")

/-- Model of express-validator's isMongoId on a body field: fails when the
field is absent or not a well-formed ObjectId string. -/
def isMongoIdOpt : Option String → Bool
  | none => false
  | some s => isMongoId s

/-- Validation chain of POST /api/users:
body("username").notEmpty().withMessage("Username is required"). -/
def usersPostValidation (b : UserBody) : List String :=
  if notEmptyOpt b.username then [] else ["Username is required"]

/-- Validation chain of POST /api/tasks: body("title").notEmpty() and
body("user").isMongoId(), with their withMessage texts. -/
def tasksPostValidation (b : TaskBody) : List String :=
  (if notEmptyOpt b.title then [] else ["Title is required"])
    ++ (if isMongoIdOpt b.user then [] else ["User ID must be a valid MongoDB ObjectId"])

/-- Validation chain of GET /api/tasks/user/:userId:
param("userId").isMongoId().withMessage("Invalid user ID"). -/
def taskUserParamValidation (userId : String) : List String :=
  if isMongoId userId then [] else ["Invalid user ID"]

/-- Payload of the JSON response envelope: an entity, a list of populated
tasks, the validation-error array, or an error message. -/
inductive Payload where
  | user (u : User)
  | task (t : Task)
  | tasks (ts : List PopulatedTask)
  | validationErrors (es : List String)
  | errorMessage (m : String)
deriving DecidableEq, Repr

/-- An HTTP response: status code plus the two-field JSON envelope
(message, payload). -/
structure Response where
  status : Nat
  message : String
  payload : Payload
deriving DecidableEq, Repr

/-- Handler of POST /api/users: on validation errors respond 400
"validation failure" with errors.array(); else call createUser and respond
200 "success" with the user, or 500 "failure" with error.message.  The
returned DB is the store state after the request. -/
def usersPost (db : DB) (b : UserBody) : Response × DB :=
  let errors := usersPostValidation b
  if errors.isEmpty = false then
    (⟨400, "validation failure", .validationErrors errors⟩, db)
  else
    match createUser db b with
    | .ok (user, db') => (⟨200, "success", .user user⟩, db')
    | .error e => (⟨500, "failure", .errorMessage e.message⟩, db)

/-- Handler of POST /api/tasks: on validation errors respond 400
"validation failure"; else call createTask and respond 200 "success" with
the task, or 500 "failure" with error.message. -/
def tasksPost (db : DB) (b : TaskBody) : Response × DB :=
  let errors := tasksPostValidation b
  if errors.isEmpty = false then
    (⟨400, "validation failure", .validationErrors errors⟩, db)
  else
    match createTask db b with
    | .ok (task, db') => (⟨200, "success", .task task⟩, db')
    | .error e => (⟨500, "failure", .errorMessage e.message⟩, db)

/-- Handler of GET /api/tasks/user/:userId: on validation errors respond
400 "validation failure"; else call getTasksByUser and respond 200
"success" with the populated tasks, or 500 "failure" with error.message. -/
def tasksGetByUser (db : DB) (userId : String) : Response × DB :=
  let errors := taskUserParamValidation userId
  if errors.isEmpty = false then
    (⟨400, "validation failure", .validationErrors errors⟩, db)
  else
    match getTasksByUser db userId with
    | .ok tasks => (⟨200, "success", .tasks tasks⟩, db)
    | .error e => (⟨500, "failure", .errorMessage e.message⟩, db)

/-- The fixed listening port from index.js. -/
def PORT : Nat := 3000

/-- Global middleware wired by the application entry. -/
inductive Middleware where
  | jsonBodyParsing
  | morganLogger
deriving DecidableEq, Repr

/-- The two resource routers. -/
inductive RouterId where
  | usersRouter
  | tasksRouter
deriving DecidableEq, Repr

/-- Middleware registered by index.js, in registration order:
app.use(express.json()) then app.use(logger("dev")). -/
def appMiddleware : List Middleware :=
  [.jsonBodyParsing, .morganLogger]

/-- Router mounts registered by index.js: app.use("/api/users", userRouter)
and app.use("/api/tasks", taskRouter). -/
def appMounts : List (String × RouterId) :=
  [("/api/users", .usersRouter), ("/api/tasks", .tasksRouter)]

/-- Router mounted at a given path prefix, when any. -/
def mountedAt (path : String) : Option RouterId :=
  appMounts.lookup path

/-- Events of the startup sequence of index.js. -/
inductive StartupEvent where
  | listenStart (port : Nat)
  | logServerOn
  | connectAttempt
deriving DecidableEq, Repr

/-- Startup sequence of index.js in program order: app.listen(PORT, cb)
begins listening, then the listen callback logs and only then invokes
connectToMongoDB(). -/
def startupTrace : List StartupEvent :=
  [.listenStart PORT, .logServerOn, .connectAttempt]

/-- Model of mongoose.connect(process.env.MONGODB_URI): succeeds exactly
when the store endpoint is reachable. -/
def mongooseConnect (reachable : Bool) : Except String Unit :=
  if reachable then .ok () else .error "MongooseServerSelectionError: could not connect"

/-- Observable outcome of the connection bootstrap: resulting connectivity,
console logs emitted, and how many connect attempts were made. -/
structure ConnOutcome where
  connected : Bool
  logs : List String
  connectCalls : Nat
deriving DecidableEq, Repr

/-- Model of connectToMongoDB (src/config/connectToMongoDB.js): one await
of mongoose.connect inside try/catch; on success log "MONGODB CONNECTED",
on failure log the error and swallow it.  The function itself never
raises, so its result is always in the .ok branch of the Except. -/
def connectToMongoDB (reachable : Bool) : Except String ConnOutcome :=
  match mongooseConnect reachable with
  | .ok _ => .ok ⟨true, ["MONGODB CONNECTED"], 1⟩
  | .error e => .ok ⟨false, [e], 1⟩

/-- Concrete well-formed ObjectId used in witnesses. -/
def oidA : String := "507f1f77bcf86cd799439011"

/-- A second concrete well-formed ObjectId used in witnesses. -/
def oidB : String := "ffffffffffffffffffffffff"

/-- Sample stored user used in witnesses. -/
def aliceUser : User := ⟨oidA, "alice", 0, 0⟩

/-- Sample store holding one user and no tasks. -/
def dbAlice : DB := ⟨true, [aliceUser], [], 0, 0⟩

/-- Sample task of aliceUser. -/
def taskA : Task := ⟨oidB, "write notes", oidA, 0, 0⟩

/-- Sample store holding one user and one of their tasks. -/
def dbAliceTask : DB := ⟨true, [aliceUser], [taskA], 1, 0⟩

/-- Sample store whose connection is down. -/
def dbDown : DB := ⟨false, [], [], 0, 0⟩

/-- Invariant of the users collection: every stored username is already in
lowercase form, and no two stored users share a username. -/
def UsersInvariant (db : DB) : Prop :=
  (∀ u ∈ db.users, toLowerStr u.username = u.username) ∧
  db.users.Pairwise (fun a b => a.username ≠ b.username)

/-- The response envelope discipline shared by every route: exactly one of
200/success with an entity payload, 400/validation failure with the
rule-violation list, or 500/failure with an error message. -/
def envelopeOk (r : Response) : Prop :=
  (r.status = 200 ∧ r.message = "success" ∧
    ((∃ u, r.payload = .user u) ∨ (∃ t, r.payload = .task t) ∨ (∃ ts, r.payload = .tasks ts))) ∨
  (r.status = 400 ∧ r.message = "validation failure" ∧ ∃ es, r.payload = .validationErrors es) ∨
  (r.status = 500 ∧ r.message = "failure" ∧ ∃ m, r.payload = .errorMessage m)

/-! Helper lemmas. -/

/-- Converting a valid code point to a character and back is the identity. -/
theorem char_toNat_ofNat_valid (n : Nat) (h : n.isValidChar) : (Char.ofNat n).toNat = n := by
  rw [Char.ofNat, dif_pos h]
  rfl

/-- Lowercasing a character twice is the same as lowercasing it once. -/
theorem char_toLower_idem (c : Char) : c.toLower.toLower = c.toLower := by
  unfold Char.toLower
  by_cases h : c.toNat ≥ 65 ∧ c.toNat ≤ 90
  · rw [if_pos h]
    have hv : (c.toNat + 32).isValidChar := Or.inl (by omega)
    have ht : (Char.ofNat (c.toNat + 32)).toNat = c.toNat + 32 := char_toNat_ofNat_valid _ hv
    rw [if_neg (by rw [ht]; omega)]
  · rw [if_neg h, if_neg h]

/-- Lowercasing a string is idempotent. -/
theorem toLowerStr_idem (s : String) : toLowerStr (toLowerStr s) = toLowerStr s := by
  unfold toLowerStr
  simp only [List.map_map]
  exact congrArg String.mk (List.map_congr_left (fun c _ => char_toLower_idem c))

/-! Claim theorems. -/

/-- C4: the application entry wires the JSON body-parsing and logging
middleware, mounts the users router under /api/users and the tasks router
under /api/tasks, listens on the fixed port 3000, and its startup sequence
contains the connection-bootstrap invocation after listening begins. -/
theorem c4_app_entry_wiring :
    Middleware.jsonBodyParsing ∈ appMiddleware ∧
    Middleware.morganLogger ∈ appMiddleware ∧
    mountedAt "/api/users" = some RouterId.usersRouter ∧
    mountedAt "/api/tasks" = some RouterId.tasksRouter ∧
    PORT = 3000 ∧
    startupTrace[0]? = some (StartupEvent.listenStart PORT) ∧
    StartupEvent.connectAttempt ∈ startupTrace := by
  decide

/-- C5: the connection bootstrap, on a failed connect attempt, logs the
error and resolves normally with exactly one attempt made and the process
still running disconnected; on success it logs the success indication.  In
both cases exactly one connect attempt is made (no retry). -/
theorem c5_bootstrap_swallows_failure :
    connectToMongoDB false =
      .ok ⟨false, ["MongooseServerSelectionError: could not connect"], 1⟩ ∧
    connectToMongoDB true = .ok ⟨true, ["MONGODB CONNECTED"], 1⟩ := by
  constructor <;> rfl

/-- C9: in the startup sequence, listening starts strictly before the
connection bootstrap is attempted: the first event is listening on PORT,
the connect attempt is the third event, and no connect attempt occurs among
the first two events, so there is an interval during which the server is
listening with no store connection. -/
theorem c9_listen_before_connect :
    startupTrace[0]? = some (StartupEvent.listenStart PORT) ∧
    startupTrace[2]? = some StartupEvent.connectAttempt ∧
    (startupTrace.take 2).contains StartupEvent.connectAttempt = false := by
  decide

/-- C10: connectToMongoDB never raises to its caller: for every
reachability state its result is in the resolved branch, and whenever the
underlying connect call fails with an error, that error is logged and
swallowed, the outcome being a normal resolution in the disconnected
state. -/
theorem c10_connect_never_raises :
    ∀ reachable : Bool,
      (∃ o : ConnOutcome, connectToMongoDB reachable = .ok o) ∧
      (∀ e, mongooseConnect reachable = .error e →
        connectToMongoDB reachable = .ok ⟨false, [e], 1⟩) := by
  intro reachable
  constructor
  · cases reachable <;> exact ⟨_, rfl⟩
  · intro e he
    unfold connectToMongoDB
    rw [he]

/-- Witness for C10: at the concrete unreachable state, the hypothesis of
the propagation clause holds and the bootstrap resolves with the logged
error. -/
theorem c10_connect_never_raises_witness :
    connectToMongoDB false =
      .ok ⟨false, ["MongooseServerSelectionError: could not connect"], 1⟩ :=
  (c10_connect_never_raises false).2 "MongooseServerSelectionError: could not connect" rfl

/-- C6: the controllers createUser and createTask return exactly what the
persistence layer returns: every persistence error is propagated unchanged
to the caller, and the created record is returned otherwise. -/
theorem c6_controllers_propagate_errors :
    (∀ (db : DB) (b : UserBody), createUser db b = User.create db b) ∧
    (∀ (db : DB) (b : TaskBody), createTask db b = Task.create db b) ∧
    (∀ (db : DB) (b : UserBody) (e : MongoError),
      User.create db b = .error e → createUser db b = .error e) ∧
    (∀ (db : DB) (b : TaskBody) (e : MongoError),
      Task.create db b = .error e → createTask db b = .error e) := by
  refine ⟨?_, ?_, ?_, ?_⟩
  · intro db b
    unfold createUser
    cases User.create db b <;> rfl
  · intro db b
    unfold createTask
    cases Task.create db b <;> rfl
  · intro db b e he
    unfold createUser
    rw [he]
  · intro db b e he
    unfold createTask
    rw [he]

/-- Witness for C6: at the concrete disconnected store, both controllers
propagate the buffering-timeout persistence error unchanged. -/
theorem c6_controllers_propagate_errors_witness :
    createUser dbDown ⟨some "bob"⟩ =
      .error (.notConnected "Operation users.insertOne() buffering timed out") ∧
    createTask dbDown ⟨some "t", some oidA⟩ =
      .error (.notConnected "Operation tasks.insertOne() buffering timed out") :=
  ⟨c6_controllers_propagate_errors.2.2.1 dbDown ⟨some "bob"⟩ _ rfl,
   c6_controllers_propagate_errors.2.2.2 dbDown ⟨some "t", some oidA⟩ _ rfl⟩

/-- C7: every response of the three resource routes is the two-field
envelope (message, payload) with message exactly one of "success" (status
200, entity payload), "validation failure" (status 400, rule-violation
list) or "failure" (status 500, error message); no other message or status
occurs. -/
theorem c7_response_envelope :
    ∀ (db : DB) (ub : UserBody) (tb : TaskBody) (userId : String),
      envelopeOk (usersPost db ub).fst ∧
      envelopeOk (tasksPost db tb).fst ∧
      envelopeOk (tasksGetByUser db userId).fst := by
  intro db ub tb userId
  refine ⟨?_, ?_, ?_⟩
  · cases h : (usersPostValidation ub).isEmpty
    · simp only [usersPost, h, if_pos]
      exact Or.inr (Or.inl ⟨rfl, rfl, _, rfl⟩)
    · simp only [usersPost, h, Bool.true_eq_false, if_neg, ite_false]
      split
      · exact Or.inl ⟨rfl, rfl, Or.inl ⟨_, rfl⟩⟩
      · exact Or.inr (Or.inr ⟨rfl, rfl, _, rfl⟩)
  · cases h : (tasksPostValidation tb).isEmpty
    · simp only [tasksPost, h, if_pos]
      exact Or.inr (Or.inl ⟨rfl, rfl, _, rfl⟩)
    · simp only [tasksPost, h, Bool.true_eq_false, if_neg, ite_false]
      split
      · exact Or.inl ⟨rfl, rfl, Or.inr (Or.inl ⟨_, rfl⟩)⟩
      · exact Or.inr (Or.inr ⟨rfl, rfl, _, rfl⟩)
  · cases h : (taskUserParamValidation userId).isEmpty
    · simp only [tasksGetByUser, h, if_pos]
      exact Or.inr (Or.inl ⟨rfl, rfl, _, rfl⟩)
    · simp only [tasksGetByUser, h, Bool.true_eq_false, if_neg, ite_false]
      split
      · exact Or.inl ⟨rfl, rfl, Or.inr (Or.inr ⟨_, rfl⟩)⟩
      · exact Or.inr (Or.inr ⟨rfl, rfl, _, rfl⟩)

/-- C2: on every validated route, any violation of the declarative rules
makes the handler answer 400 "validation failure" carrying the list of
violated-rule descriptions, and leaves the store state untouched: the
controller is never invoked. -/
theorem c2_validation_rejects_before_controller :
    (∀ (db : DB) (b : UserBody), usersPostValidation b ≠ [] →
      usersPost db b =
        (⟨400, "validation failure", .validationErrors (usersPostValidation b)⟩, db)) ∧
    (∀ (db : DB) (b : TaskBody), tasksPostValidation b ≠ [] →
      tasksPost db b =
        (⟨400, "validation failure", .validationErrors (tasksPostValidation b)⟩, db)) ∧
    (∀ (db : DB) (userId : String), taskUserParamValidation userId ≠ [] →
      tasksGetByUser db userId =
        (⟨400, "validation failure", .validationErrors (taskUserParamValidation userId)⟩, db)) := by
  refine ⟨?_, ?_, ?_⟩
  · intro db b h
    have h' : (usersPostValidation b).isEmpty = false := by
      cases hl : usersPostValidation b
      · exact absurd hl h
      · rfl
    simp [usersPost, h']
  · intro db b h
    have h' : (tasksPostValidation b).isEmpty = false := by
      cases hl : tasksPostValidation b
      · exact absurd hl h
      · rfl
    simp [tasksPost, h']
  · intro db userId h
    have h' : (taskUserParamValidation userId).isEmpty = false := by
      cases hl : taskUserParamValidation userId
      · exact absurd hl h
      · rfl
    simp [tasksGetByUser, h']

/-- Witness for C2: concrete violating requests on each route (missing
username, empty title with malformed user id, malformed path parameter)
are rejected with 400 and the violated-rule lists, the store unchanged. -/
theorem c2_validation_rejects_before_controller_witness :
    usersPost dbAlice ⟨none⟩ =
      (⟨400, "validation failure", .validationErrors ["Username is required"]⟩, dbAlice) ∧
    tasksPost dbAlice ⟨some "", some "nope"⟩ =
      (⟨400, "validation failure",
        .validationErrors ["Title is required", "User ID must be a valid MongoDB ObjectId"]⟩,
        dbAlice) ∧
    tasksGetByUser dbAlice "42" =
      (⟨400, "validation failure", .validationErrors ["Invalid user ID"]⟩, dbAlice) :=
  ⟨c2_validation_rejects_before_controller.1 dbAlice ⟨none⟩ (by decide),
   c2_validation_rejects_before_controller.2.1 dbAlice ⟨some "", some "nope"⟩ (by decide),
   c2_validation_rejects_before_controller.2.2 dbAlice "42" (by decide)⟩

/-- C1: with the store connected and a well-formed userId, getTasksByUser
returns exactly the Tasks whose user field equals userId (each run through
populate), returns the empty sequence rather than failing when no Task
matches, and when the referenced User document exists every returned task
carries that full User document in place of the bare identifier. -/
theorem c1_getTasksByUser_populates :
    ∀ (db : DB) (userId : String),
      db.connected = true → isMongoId userId = true →
      (getTasksByUser db userId =
        .ok ((db.tasks.filter (fun t => t.user == userId)).map (Task.populateUser db))) ∧
      (db.tasks.filter (fun t => t.user == userId) = [] →
        getTasksByUser db userId = .ok []) ∧
      (∀ u, db.users.find? (fun v => v.id == userId) = some u →
        ∀ pt ∈ (db.tasks.filter (fun t => t.user == userId)).map (Task.populateUser db),
          pt.user = some u) := by
  intro db userId hc hm
  have hcast : castableToObjectId userId = true := by
    unfold castableToObjectId
    rw [hm]
    rfl
  have h1 : getTasksByUser db userId =
      .ok ((db.tasks.filter (fun t => t.user == userId)).map (Task.populateUser db)) := by
    simp [getTasksByUser, Task.findUserPopulate, hc, hcast]
  refine ⟨h1, ?_, ?_⟩
  · intro hnil
    rw [h1, hnil]
    rfl
  · intro u hu pt hpt
    obtain ⟨t, htmem, rfl⟩ := List.mem_map.1 hpt
    have htu : t.user = userId := by
      have := (List.mem_filter.1 htmem).2
      simpa using this
    show db.users.find? (fun v => v.id == t.user) = some u
    rw [htu]
    exact hu

/-- Witness for C1: in the concrete store holding alice and one of her
tasks, the lookup by alice's id succeeds and the returned task embeds the
full alice document. -/
theorem c1_getTasksByUser_populates_witness :
    getTasksByUser dbAliceTask oidA =
      .ok ((dbAliceTask.tasks.filter (fun t => t.user == oidA)).map (Task.populateUser dbAliceTask)) ∧
    (Task.populateUser dbAliceTask taskA).user = some aliceUser :=
  ⟨(c1_getTasksByUser_populates dbAliceTask oidA rfl (by decide)).1,
   (c1_getTasksByUser_populates dbAliceTask oidA rfl (by decide)).2.2 aliceUser (by decide)
     (Task.populateUser dbAliceTask taskA) (by decide)⟩

/-- C8: task-creation validation passes exactly when the title is present
and non-empty and the user field is a well-formed MongoDB ObjectId; it is
a format check only, so with a connected store a request whose user id is
well-formed but matches no stored User still passes validation and the
task is created referencing that id. -/
theorem c8_task_validation_is_format_only :
    (∀ b : TaskBody, tasksPostValidation b = [] ↔
      ((∃ t, b.title = some t ∧ t ≠ "") ∧ (∃ u, b.user = some u ∧ isMongoId u = true))) ∧
    (∀ (db : DB) (b : TaskBody) (u : String),
      db.connected = true → b.user = some u → tasksPostValidation b = [] →
      (∀ w ∈ db.users, w.id ≠ u) →
      ∃ t db', tasksPost db b = (⟨200, "success", Payload.task t⟩, db') ∧ t.user = u) := by
  have hiff : ∀ b : TaskBody, tasksPostValidation b = [] ↔
      ((∃ t, b.title = some t ∧ t ≠ "") ∧ (∃ u, b.user = some u ∧ isMongoId u = true)) := by
    intro b
    obtain ⟨title, user⟩ := b
    cases title <;> cases user <;>
      simp [tasksPostValidation, notEmptyOpt, isMongoIdOpt]
  refine ⟨hiff, ?_⟩
  intro db b u hc hu hval _
  obtain ⟨⟨t, ht, htne⟩, ⟨u', hu', hmid⟩⟩ := (hiff b).1 hval
  have huu : u' = u := by
    rw [hu] at hu'
    exact (Option.some.inj hu').symm
  subst huu
  have hcast : castableToObjectId u' = true := by
    unfold castableToObjectId
    rw [hmid]
    rfl
  have hval' : (tasksPostValidation b).isEmpty = true := by
    rw [hval]
    rfl
  refine ⟨⟨genOid db.counter, t, u', db.now, db.now⟩,
    { db with tasks := db.tasks ++ [⟨genOid db.counter, t, u', db.now, db.now⟩],
              counter := db.counter + 1 }, ?_, rfl⟩
  simp [tasksPost, hval', createTask, Task.create, hc, ht, hu, htne, hcast]

/-- Witness for C8: oidB is well-formed but names no stored user in the
one-user store, yet the creation request passes validation and succeeds. -/
theorem c8_task_validation_is_format_only_witness :
    ∃ t db', tasksPost dbAlice ⟨some "write notes", some oidB⟩ =
      (⟨200, "success", Payload.task t⟩, db') ∧ t.user = oidB :=
  c8_task_validation_is_format_only.2 dbAlice ⟨some "write notes", some oidB⟩ oidB
    rfl rfl (by decide) (by decide)

/-- C3: usernames are normalized to lowercase on write and unique across
stored Users: a successful createUser stores the lowercased username and
preserves the no-two-users-share-a-username invariant, and on a connected
store a second creation whose username collides case-insensitively with a
stored one fails with the duplicate-key persistence error, creating
nothing. -/
theorem c3_usernames_lowercase_unique :
    (∀ (db db' : DB) (b : UserBody) (u : User),
      UsersInvariant db → User.create db b = .ok (u, db') →
      UsersInvariant db' ∧ ∀ raw, b.username = some raw → u.username = toLowerStr raw) ∧
    (∀ (db : DB) (raw : String) (w : User),
      UsersInvariant db → db.connected = true → w ∈ db.users → raw ≠ "" →
      toLowerStr w.username = toLowerStr raw →
      User.create db ⟨some raw⟩ =
        .error (.duplicateKey "E11000 duplicate key error collection: users index: username_1")) := by
  constructor
  · intro db db' b u hinv hok
    unfold User.create at hok
    by_cases hconn : db.connected = false
    · rw [if_pos hconn] at hok
      exact absurd hok (by simp)
    rw [if_neg hconn] at hok
    cases hb : b.username with
    | none =>
      rw [hb] at hok
      exact absurd hok (by simp)
    | some raw =>
      rw [hb] at hok
      dsimp only at hok
      by_cases hraw : (raw == "") = true
      · rw [if_pos hraw] at hok
        exact absurd hok (by simp)
      rw [if_neg hraw] at hok
      by_cases hany : (db.users.any fun v => v.username == toLowerStr raw) = true
      · rw [if_pos hany] at hok
        exact absurd hok (by simp)
      rw [if_neg hany] at hok
      have h := Except.ok.inj hok
      cases h
      refine ⟨⟨?_, ?_⟩, ?_⟩
      · intro v hv
        rcases List.mem_append.1 hv with hv1 | hv2
        · exact hinv.1 v hv1
        · rw [List.mem_singleton.1 hv2]
          exact toLowerStr_idem raw
      · refine List.pairwise_append.2 ⟨hinv.2, List.pairwise_singleton _ _, ?_⟩
        intro a ha v hv
        rw [List.mem_singleton.1 hv]
        intro heq
        exact hany (List.any_eq_true.2 ⟨a, ha, by simp [heq]⟩)
      · intro raw' hraw'
        exact congrArg toLowerStr (Option.some.inj hraw')
  · intro db raw w hinv hc hw hne hcol
    have hwname : w.username = toLowerStr raw := (hinv.1 w hw).symm.trans hcol
    have hany : db.users.any (fun u => u.username == toLowerStr raw) = true :=
      List.any_eq_true.2 ⟨w, hw, by rw [hwname]; exact beq_self_eq_true _⟩
    have hne' : (raw == "") = false := by simpa using hne
    simp [User.create, hc, hne', hany]

/-- Witness for C3: creating "Bob" on the one-user store preserves the
invariant with the stored name "bob", and creating "ALICE" over stored
"alice" fails with the duplicate-key error. -/
theorem c3_usernames_lowercase_unique_witness :
    UsersInvariant
      ⟨true, [aliceUser, ⟨"000000000000000000000000", "bob", 0, 0⟩], [], 1, 0⟩ ∧
    User.create dbAlice ⟨some "ALICE"⟩ =
      .error (.duplicateKey "E11000 duplicate key error collection: users index: username_1") :=
  ⟨(c3_usernames_lowercase_unique.1 dbAlice
      ⟨true, [aliceUser, ⟨"000000000000000000000000", "bob", 0, 0⟩], [], 1, 0⟩
      ⟨some "Bob"⟩ ⟨"000000000000000000000000", "bob", 0, 0⟩
      ⟨by decide, by decide⟩ rfl).1,
   c3_usernames_lowercase_unique.2 dbAlice "ALICE" aliceUser
      ⟨by decide, by decide⟩ rfl (by decide) (by decide) (by decide)⟩

end MongoRel
